import Mathlib

/-!
Shallow embedding of `src/cvd_risk_app.py` (PRIME CVD Risk Calculator).

Python floats are modelled as exact rationals (`ℚ`) for the pure-arithmetic
functions (`calculate_ldl_reduction`, `calculate_ldl_effect`,
`generate_recommendations`) and as real numbers (`ℝ`) for
`calculate_smart_risk`, which uses the transcendental functions
`math.log`, `math.exp` and float exponentiation `0.900 ** x`.
Python's `round(x, 1)` rounds half to even; it is embedded as
`roundHalfEven (10 * x) / 10` below.
-/

namespace CVD

/-- `LDL_THERAPIES` from the source: a fixed table mapping a statin name to
its percent LDL reduction (the Python value is a one-field dict
`{"reduction": r}`; only that field is ever read, so entries are flattened
to the rational `r`). -/
def LDL_THERAPIES : List (String × ℚ) :=
  [("Atorvastatin 20 mg", 40),
   ("Atorvastatin 80 mg", 50),
   ("Rosuvastatin 10 mg", 45),
   ("Rosuvastatin 20 mg", 55)]

/-- `LDL_THERAPIES.get(name, {}).get("reduction", 0)`: catalog lookup with a
fallback of 0 for a name that is not in the table. -/
def therapyReduction (name : String) : ℚ :=
  (LDL_THERAPIES.lookup name).getD 0

/-- `calculate_ldl_reduction(current_ldl, pre_statin, discharge_statin,
discharge_add_ons)` from the source.  The Python body mutates
`statin_reduction` and `total_reduction` in sequence; each mutation is
modelled by a shadowing `let`. -/
def calculate_ldl_reduction (current_ldl : ℚ) (pre_statin discharge_statin : String)
    (discharge_add_ons : List String) : ℚ × ℚ :=
  let statin_reduction : ℚ := therapyReduction discharge_statin
  let statin_reduction : ℚ :=
    if pre_statin ≠ "None" then statin_reduction * 0.5 else statin_reduction
  let total_reduction : ℚ := statin_reduction
  let total_reduction : ℚ :=
    if "Ezetimibe" ∈ discharge_add_ons then total_reduction + 20 else total_reduction
  let total_reduction : ℚ :=
    if "PCSK9 inhibitor" ∈ discharge_add_ons then total_reduction + 60 else total_reduction
  let total_reduction : ℚ :=
    if "Inclisiran" ∈ discharge_add_ons then total_reduction + 50 else total_reduction
  let projected_ldl : ℚ := current_ldl * (1 - total_reduction / 100)
  (projected_ldl, total_reduction)

/-- `calculate_ldl_effect(baseline_risk, baseline_ldl, final_ldl,
bp_controlled, smoking_cessation, lifestyle)` from the source.  The
`try/except` wrapper in the Python code can only fire on non-numeric
input, which cannot arise in this typed embedding; the body is pure
rational arithmetic. -/
def calculate_ldl_effect (baseline_risk baseline_ldl final_ldl : ℚ)
    (bp_controlled smoking_cessation lifestyle : Bool) : ℚ :=
  let ldl_reduction : ℚ := baseline_ldl - final_ldl
  let rrr : ℚ := min (22 * ldl_reduction) 60
  let rrr : ℚ := if bp_controlled then rrr + 10 else rrr
  let rrr : ℚ := if smoking_cessation then rrr + 10 else rrr
  let rrr : ℚ := if lifestyle then rrr + 5 else rrr
  let rrr : ℚ := min rrr 80
  baseline_risk * (1 - rrr / 100)

/-- The "Very High" tier string returned by `generate_recommendations`
(the leading characters are the mojibake bytes present verbatim in the
source file). -/
def veryHighText : String :=
  "ðŸ”´ Very High Risk: High-intensity statin, PCSK9 inhibitor, SBP <130 mmHg, lifestyle adherence."

/-- The "High" tier string returned by `generate_recommendations`. -/
def highText : String :=
  "ðŸŸ  High Risk: Moderate-intensity statin, SBP <130 mmHg, encourage smoking cessation and healthy diet."

/-- The "Moderate" tier string returned by `generate_recommendations`. -/
def moderateText : String :=
  "ðŸŸ¢ Moderate Risk: Lifestyle adherence, annual reassessment."

/-- `generate_recommendations(final_risk)` from the source: a pure
threshold mapping, first match wins. -/
def generate_recommendations (final_risk : ℚ) : String :=
  if final_risk ≥ 30 then veryHighText
  else if final_risk ≥ 20 then highText
  else moderateText

/-- Round-half-to-even on the reals, modelling the tie behaviour of
Python's `round`.  Away from exact-half ties it agrees with Mathlib's
`round` (round half up); at a tie it picks the even neighbour. -/
noncomputable def roundHalfEven (x : ℝ) : ℤ :=
  if Int.fract x = 1 / 2 ∧ Even ⌊x⌋ then ⌊x⌋ else round x

/-- Python's `round(x, 1)`: round to one decimal digit, half to even. -/
noncomputable def round1 (x : ℝ) : ℝ :=
  (roundHalfEven (x * 10) : ℝ) / 10

/-- `sex_val = 1 if sex == "Male" else 0` from `calculate_smart_risk`. -/
def sex_val (sex : String) : ℝ :=
  if sex = "Male" then 1 else 0

/-- `1 if flag else 0`, used for the `smoker` and `diabetes` flags. -/
def flag_val (b : Bool) : ℝ :=
  if b then 1 else 0

/-- `crp_log = math.log(max(crp, 0.1) + 1)` from `calculate_smart_risk`. -/
noncomputable def crp_log (crp : ℝ) : ℝ :=
  Real.log (max crp 0.1 + 1)

/-- The log-linear predictor `lp` of `calculate_smart_risk`. -/
noncomputable def lp (age : ℝ) (sex : String) (sbp total_chol hdl : ℝ)
    (smoker diabetes : Bool) (egfr crp vasc_count : ℝ) : ℝ :=
  0.064 * age + 0.34 * sex_val sex + 0.02 * sbp + 0.25 * total_chol -
    0.25 * hdl + 0.44 * flag_val smoker + 0.51 * flag_val diabetes -
    0.2 * (egfr / 10) + 0.25 * crp_log crp + 0.4 * vasc_count

/-- `risk10 = 1 - 0.900 ** math.exp(lp - 5.8)` from `calculate_smart_risk`
(`**` on floats is real exponentiation, `Real.rpow`). -/
noncomputable def risk10 (l : ℝ) : ℝ :=
  1 - (0.900 : ℝ) ^ Real.exp (l - 5.8)

/-- `calculate_smart_risk(age, sex, sbp, total_chol, hdl, smoker,
diabetes, egfr, crp, vasc_count)` from the source:
`max(1.0, min(99.0, round(risk10 * 100, 1)))`.  The `try/except` wrapper
cannot fire in this real-valued embedding: the logarithm argument
`max(crp, 0.1) + 1 ≥ 1.1` is always positive and `exp`/`**` are total,
so the function always returns the clamped rounded value. -/
noncomputable def calculate_smart_risk (age : ℝ) (sex : String)
    (sbp total_chol hdl : ℝ) (smoker diabetes : Bool)
    (egfr crp vasc_count : ℝ) : ℝ :=
  max 1.0 (min 99.0
    (round1 (risk10 (lp age sex sbp total_chol hdl smoker diabetes egfr crp vasc_count) * 100)))

/-- The clinical input ranges of §3 of the spec: age 30–100, SBP 90–220,
total cholesterol 2.0–10.0, HDL 0.5–3.0, eGFR 15–120, CRP 0.0–20.0,
vascular count 0–3. -/
def InRanges (age sbp total_chol hdl egfr crp vasc_count : ℝ) : Prop :=
  30 ≤ age ∧ age ≤ 100 ∧ 90 ≤ sbp ∧ sbp ≤ 220 ∧
    2 ≤ total_chol ∧ total_chol ≤ 10 ∧ 0.5 ≤ hdl ∧ hdl ≤ 3 ∧
    15 ≤ egfr ∧ egfr ≤ 120 ∧ 0 ≤ crp ∧ crp ≤ 20 ∧
    0 ≤ vasc_count ∧ vasc_count ≤ 3

/-- The total reduction percent as the spec/claim words it: catalog
reduction of the new statin, halved when a pre-existing statin is in use,
plus flat increments of 20/60/50 for the three add-ons, no cap.  This is
the spec-side formula, kept separate so it can be compared with the
source-side `calculate_ldl_reduction`. -/
def totalReductionSpec (pre_statin new_statin : String) (add_ons : List String) : ℚ :=
  (if pre_statin ≠ "None" then therapyReduction new_statin / 2
    else therapyReduction new_statin) +
    (if "Ezetimibe" ∈ add_ons then 20 else 0) +
    (if "PCSK9 inhibitor" ∈ add_ons then 60 else 0) +
    (if "Inclisiran" ∈ add_ons then 50 else 0)

/-- The relative risk reduction as the spec/claim words it:
`min(min(22*(baselineLdl-finalLdl), 60) + bonuses, 80)`.  Spec-side
formula for comparison with the source-side `calculate_ldl_effect`. -/
def rrrSpec (baseline_ldl final_ldl : ℚ) (bp_controlled smoking_cessation lifestyle : Bool) : ℚ :=
  min (min (22 * (baseline_ldl - final_ldl)) 60 +
      (if bp_controlled then 10 else 0) +
      (if smoking_cessation then 10 else 0) +
      (if lifestyle then 5 else 0)) 80

/-- Every value of the catalog fallback lookup is one of the four catalog
reductions or the fallback 0. -/
lemma therapyReduction_cases (s : String) :
    therapyReduction s = 40 ∨ therapyReduction s = 50 ∨
      therapyReduction s = 45 ∨ therapyReduction s = 55 ∨
      therapyReduction s = 0 := by
  by_cases h1 : s = "Atorvastatin 20 mg"
  · subst h1; left; rfl
  by_cases h2 : s = "Atorvastatin 80 mg"
  · subst h2; right; left; rfl
  by_cases h3 : s = "Rosuvastatin 10 mg"
  · subst h3; right; right; left; rfl
  by_cases h4 : s = "Rosuvastatin 20 mg"
  · subst h4; right; right; right; left; rfl
  · right; right; right; right
    simp [therapyReduction, LDL_THERAPIES, List.lookup,
      beq_eq_false_iff_ne.mpr h1, beq_eq_false_iff_ne.mpr h2,
      beq_eq_false_iff_ne.mpr h3, beq_eq_false_iff_ne.mpr h4]

/-- The catalog fallback lookup never returns a negative reduction. -/
lemma therapyReduction_nonneg (s : String) : 0 ≤ therapyReduction s := by
  rcases therapyReduction_cases s with h | h | h | h | h <;> rw [h] <;> norm_num

/-- A name that is not a key of `LDL_THERAPIES` looks up to the fallback 0. -/
lemma therapyReduction_eq_zero_of_not_mem {s : String}
    (h : s ∉ LDL_THERAPIES.map Prod.fst) : therapyReduction s = 0 := by
  simp only [LDL_THERAPIES, List.map, List.mem_cons, List.not_mem_nil, or_false] at h
  push_neg at h
  obtain ⟨h1, h2, h3, h4⟩ := h
  simp [therapyReduction, LDL_THERAPIES, List.lookup,
    beq_eq_false_iff_ne.mpr h1, beq_eq_false_iff_ne.mpr h2,
    beq_eq_false_iff_ne.mpr h3, beq_eq_false_iff_ne.mpr h4]

/-- The source's sequential accumulation agrees with the spec-side closed
formula `totalReductionSpec`. -/
lemma calculate_ldl_reduction_eq (l : ℚ) (pre new : String) (addons : List String) :
    calculate_ldl_reduction l pre new addons =
      (l * (1 - totalReductionSpec pre new addons / 100),
        totalReductionSpec pre new addons) := by
  simp only [calculate_ldl_reduction, totalReductionSpec]
  split_ifs <;> simp [Prod.ext_iff] <;> ring_nf <;> tauto

/-- The spec-side total reduction is non-negative for every input. -/
lemma totalReductionSpec_nonneg (pre new : String) (addons : List String) :
    0 ≤ totalReductionSpec pre new addons := by
  have h := therapyReduction_nonneg new
  unfold totalReductionSpec
  split_ifs <;> linarith

/-- Claim C2: `calculate_ldl_reduction` computes the total reduction as the
catalog reduction of the new statin (0 for "None"/unknown), halved when a
pre-existing statin is in use, plus flat add-on increments 20/60/50, with
no cap, and projects `currentLdl * (1 - totalReduction/100)`; in
particular the two worked examples of the spec hold. -/
theorem claim_C2_ldl_projection :
    (∀ (l : ℚ) (pre new : String) (addons : List String),
        calculate_ldl_reduction l pre new addons =
          (l * (1 - totalReductionSpec pre new addons / 100),
            totalReductionSpec pre new addons)) ∧
      calculate_ldl_reduction 5 "None" "Atorvastatin 80 mg" [] = (2.5, 50) ∧
      calculate_ldl_reduction 5 "Atorvastatin 20 mg" "Rosuvastatin 20 mg" ["Ezetimibe"] =
        (2.625, 47.5) := by
  refine ⟨calculate_ldl_reduction_eq, ?_, ?_⟩
  · simp [calculate_ldl_reduction,
      show therapyReduction "Atorvastatin 80 mg" = 50 from rfl]
    norm_num
  · simp [calculate_ldl_reduction,
      show therapyReduction "Rosuvastatin 20 mg" = 55 from rfl]
    norm_num

/-- Claim C3: `calculate_ldl_effect` returns
`baselineRisk * (1 - rrr/100)` with
`rrr = min(min(22*(baselineLdl-finalLdl), 60) + 10·bp + 10·sc + 5·ls, 80)`;
in particular the spec's worked example gives 9.3. -/
theorem claim_C3_risk_adjustment :
    (∀ (baseline_risk baseline_ldl final_ldl : ℚ) (bp sc ls : Bool),
        calculate_ldl_effect baseline_risk baseline_ldl final_ldl bp sc ls =
          baseline_risk * (1 - rrrSpec baseline_ldl final_ldl bp sc ls / 100)) ∧
      calculate_ldl_effect 30 4 2 true true true = 9.3 := by
  constructor
  · intro br bl fl bp sc ls
    cases bp <;> cases sc <;> cases ls <;>
      simp [calculate_ldl_effect, rrrSpec]
  · simp [calculate_ldl_effect, min_def]
    norm_num

/-- Claim C4: `generate_recommendations` is total and maps `finalRisk ≥ 30`
to the Very High tier, `20 ≤ finalRisk < 30` to the High tier and
`finalRisk < 20` to the Moderate tier; the boundaries 30 and 20 select the
higher tier, as the concrete values 35, 30, 20 and 19.9 show. -/
theorem claim_C4_recommendation_tiers :
    (∀ r : ℚ,
        (30 ≤ r → generate_recommendations r = veryHighText) ∧
        (20 ≤ r → r < 30 → generate_recommendations r = highText) ∧
        (r < 20 → generate_recommendations r = moderateText)) ∧
      generate_recommendations 35 = veryHighText ∧
      generate_recommendations 30 = veryHighText ∧
      generate_recommendations 20 = highText ∧
      generate_recommendations 19.9 = moderateText := by
  have hmain : ∀ r : ℚ,
      (30 ≤ r → generate_recommendations r = veryHighText) ∧
      (20 ≤ r → r < 30 → generate_recommendations r = highText) ∧
      (r < 20 → generate_recommendations r = moderateText) := by
    intro r
    refine ⟨fun h => ?_, fun h1 h2 => ?_, fun h => ?_⟩
    · rw [generate_recommendations, if_pos h]
    · rw [generate_recommendations, if_neg (not_le.mpr h2), if_pos h1]
    · rw [generate_recommendations, if_neg (not_le.mpr (by linarith)),
        if_neg (not_le.mpr h)]
  refine ⟨hmain, (hmain 35).1 (by norm_num), (hmain 30).1 (by norm_num),
    (hmain 20).2.1 (by norm_num) (by norm_num), (hmain 19.9).2.2 (by norm_num)⟩

/-- Witness for C4: the tier implications applied at the concrete risks
45, 25 and 10. -/
theorem claim_C4_witness :
    generate_recommendations 45 = veryHighText ∧
      generate_recommendations 25 = highText ∧
      generate_recommendations 10 = moderateText :=
  ⟨(claim_C4_recommendation_tiers.1 45).1 (by norm_num),
   (claim_C4_recommendation_tiers.1 25).2.1 (by norm_num) (by norm_num),
   (claim_C4_recommendation_tiers.1 10).2.2 (by norm_num)⟩

/-- Claim C6: a therapy name that is not a key of the catalog (including
the "None" sentinel) contributes a reduction of exactly 0, and
`calculate_ldl_reduction` on such a name behaves exactly as with "None"
(it always returns a pair; there is no error path). -/
theorem claim_C6_unknown_therapy :
    ∀ s : String, s ∉ LDL_THERAPIES.map Prod.fst →
      therapyReduction s = 0 ∧
        ∀ (l : ℚ) (pre : String) (addons : List String),
          calculate_ldl_reduction l pre s addons =
            calculate_ldl_reduction l pre "None" addons := by
  intro s hs
  have h0 : therapyReduction s = 0 := therapyReduction_eq_zero_of_not_mem hs
  refine ⟨h0, fun l pre addons => ?_⟩
  rw [calculate_ldl_reduction_eq, calculate_ldl_reduction_eq]
  simp [totalReductionSpec, h0, show therapyReduction "None" = 0 from rfl]

/-- Witness for C6: the unknown name "Simvastatin 40 mg" (not a catalog
key) contributes 0 and projects like "None". -/
theorem claim_C6_witness :
    therapyReduction "Simvastatin 40 mg" = 0 ∧
      calculate_ldl_reduction 4 "None" "Simvastatin 40 mg" ["Ezetimibe"] =
        calculate_ldl_reduction 4 "None" "None" ["Ezetimibe"] := by
  have h := claim_C6_unknown_therapy "Simvastatin 40 mg" (by simp [LDL_THERAPIES])
  exact ⟨h.1, h.2 4 "None" ["Ezetimibe"]⟩

/-- Claim C7: at the positive LDL 5.0 with no pre-existing statin,
Atorvastatin 80 mg plus the PCSK9-inhibitor and Inclisiran add-ons, the
total reduction is 160 > 100 and the projected LDL is −3 < 0: no
non-negative floor is applied. -/
theorem claim_C7_negative_ldl :
    calculate_ldl_reduction 5 "None" "Atorvastatin 80 mg"
        ["PCSK9 inhibitor", "Inclisiran"] = (-3, 160) ∧
      100 < (calculate_ldl_reduction 5 "None" "Atorvastatin 80 mg"
        ["PCSK9 inhibitor", "Inclisiran"]).2 ∧
      (calculate_ldl_reduction 5 "None" "Atorvastatin 80 mg"
        ["PCSK9 inhibitor", "Inclisiran"]).1 < 0 ∧
      (0 : ℚ) < 5 := by
  have h : calculate_ldl_reduction 5 "None" "Atorvastatin 80 mg"
      ["PCSK9 inhibitor", "Inclisiran"] = (-3, 160) := by
    simp [calculate_ldl_reduction,
      show therapyReduction "Atorvastatin 80 mg" = 50 from rfl]
    norm_num
  refine ⟨h, ?_, ?_, by norm_num⟩ <;> rw [h] <;> norm_num

/-- Claim C9: the total reduction returned by `calculate_ldl_reduction` is
always non-negative, and for a non-negative current LDL the projected LDL
never exceeds the current LDL. -/
theorem claim_C9_projection_bounds :
    (∀ (l : ℚ) (pre s : String) (addons : List String),
        0 ≤ (calculate_ldl_reduction l pre s addons).2) ∧
      (∀ (l : ℚ) (pre s : String) (addons : List String),
        0 ≤ l → (calculate_ldl_reduction l pre s addons).1 ≤ l) := by
  constructor
  · intro l pre s addons
    rw [calculate_ldl_reduction_eq]
    exact totalReductionSpec_nonneg pre s addons
  · intro l pre s addons hl
    rw [calculate_ldl_reduction_eq]
    have hT := totalReductionSpec_nonneg pre s addons
    have := mul_nonneg hl hT
    dsimp only
    nlinarith

/-- Witness for C9: at current LDL 5 with Atorvastatin 80 mg the total
reduction is non-negative and the projection does not exceed 5. -/
theorem claim_C9_witness :
    0 ≤ (calculate_ldl_reduction 5 "None" "Atorvastatin 80 mg" []).2 ∧
      (calculate_ldl_reduction 5 "None" "Atorvastatin 80 mg" []).1 ≤ 5 :=
  ⟨claim_C9_projection_bounds.1 5 "None" "Atorvastatin 80 mg" [],
   claim_C9_projection_bounds.2 5 "None" "Atorvastatin 80 mg" [] (by norm_num)⟩

/-- Rounding half to even never drops below the floor. -/
lemma floor_le_roundHalfEven (x : ℝ) : ⌊x⌋ ≤ roundHalfEven x := by
  unfold roundHalfEven
  split_ifs with h
  · exact le_rfl
  · rw [round_eq]
    exact Int.floor_mono (by linarith)

/-- Rounding half to even is monotone. -/
lemma roundHalfEven_mono {x y : ℝ} (h : x ≤ y) : roundHalfEven x ≤ roundHalfEven y := by
  rcases eq_or_lt_of_le h with rfl | hlt
  · exact le_rfl
  unfold roundHalfEven
  split_ifs with hx hy hy
  · exact Int.floor_mono h
  · rw [round_eq]
    exact (Int.floor_mono h).trans (Int.floor_mono (by linarith))
  · have hy2 : (⌊y⌋ : ℝ) + Int.fract y = y := Int.floor_add_fract y
    rw [hy.1] at hy2
    rw [round_eq]
    have h2 : ⌊x + 1 / 2⌋ < ⌊y⌋ + 1 := by
      rw [Int.floor_lt]
      push_cast
      linarith
    omega
  · rw [round_eq, round_eq]
    exact Int.floor_mono (by linarith)

/-- Rounding to one decimal digit is monotone. -/
lemma round1_mono {x y : ℝ} (h : x ≤ y) : round1 x ≤ round1 y := by
  unfold round1
  gcongr
  exact_mod_cast roundHalfEven_mono (by linarith)

/-- `risk10` is monotone in the log-linear predictor: a larger predictor
gives a larger 10-year probability (`0.9 ^ exp` is decreasing). -/
lemma risk10_mono {l l' : ℝ} (h : l ≤ l') : risk10 l ≤ risk10 l' := by
  unfold risk10
  have h1 : Real.exp (l - 5.8) ≤ Real.exp (l' - 5.8) :=
    Real.exp_le_exp.mpr (by linarith)
  have h2 : (0.900 : ℝ) ^ Real.exp (l' - 5.8) ≤ (0.900 : ℝ) ^ Real.exp (l - 5.8) :=
    Real.rpow_le_rpow_of_exponent_ge (by norm_num) (by norm_num) h1
  linarith

/-- The rounded and clamped risk output is monotone in the predictor. -/
lemma clamped_risk_mono {l l' : ℝ} (h : l ≤ l') :
    max 1.0 (min 99.0 (round1 (risk10 l * 100))) ≤
      max 1.0 (min 99.0 (round1 (risk10 l' * 100))) :=
  max_le_max le_rfl (min_le_min le_rfl (round1_mono (by nlinarith [risk10_mono h])))

/-- Claim C1: for every input within the §3 clinical ranges (any sex
string and boolean flags), `calculate_smart_risk` returns a value in
[1.0, 99.0]; it is never 0 and never 100. -/
theorem claim_C1_risk_range :
    ∀ (age : ℝ) (sex : String) (sbp total_chol hdl : ℝ) (smoker diabetes : Bool)
      (egfr crp vasc_count : ℝ),
      InRanges age sbp total_chol hdl egfr crp vasc_count →
      1 ≤ calculate_smart_risk age sex sbp total_chol hdl smoker diabetes egfr crp vasc_count ∧
        calculate_smart_risk age sex sbp total_chol hdl smoker diabetes egfr crp vasc_count ≤ 99 ∧
        calculate_smart_risk age sex sbp total_chol hdl smoker diabetes egfr crp vasc_count ≠ 0 ∧
        calculate_smart_risk age sex sbp total_chol hdl smoker diabetes egfr crp vasc_count ≠ 100 := by
  intro age sex sbp total_chol hdl smoker diabetes egfr crp vasc_count _
  have hlb : (1 : ℝ) ≤
      calculate_smart_risk age sex sbp total_chol hdl smoker diabetes egfr crp vasc_count := by
    unfold calculate_smart_risk
    exact le_trans (by norm_num) (le_max_left (1.0 : ℝ) _)
  have hub :
      calculate_smart_risk age sex sbp total_chol hdl smoker diabetes egfr crp vasc_count ≤ 99 := by
    unfold calculate_smart_risk
    exact max_le (by norm_num) (le_trans (min_le_left _ _) (by norm_num))
  refine ⟨hlb, hub, ?_, ?_⟩
  · intro h0
    rw [h0] at hlb
    norm_num at hlb
  · intro h100
    rw [h100] at hub
    norm_num at hub

/-- Witness for C1: the bounds at a concrete in-range input. -/
theorem claim_C1_witness :
    1 ≤ calculate_smart_risk 65 "Male" 140 5 1 false false 80 2 0 ∧
      calculate_smart_risk 65 "Male" 140 5 1 false false 80 2 0 ≤ 99 ∧
      calculate_smart_risk 65 "Male" 140 5 1 false false 80 2 0 ≠ 0 ∧
      calculate_smart_risk 65 "Male" 140 5 1 false false 80 2 0 ≠ 100 :=
  claim_C1_risk_range 65 "Male" 140 5 1 false false 80 2 0 (by norm_num [InRanges])

/-- Claim C8: CRP is floored at 0.1 before the logarithm, so every
`crp ≤ 0.1` (in particular the 0.0 passed when CRP is excluded) gives the
same result as `crp = 0.1`, the log term being `ln(1.1)`. -/
theorem claim_C8_crp_floor :
    ∀ (age : ℝ) (sex : String) (sbp total_chol hdl : ℝ) (smoker diabetes : Bool)
      (egfr vasc_count crp : ℝ), crp ≤ 0.1 →
      calculate_smart_risk age sex sbp total_chol hdl smoker diabetes egfr crp vasc_count =
        calculate_smart_risk age sex sbp total_chol hdl smoker diabetes egfr 0.1 vasc_count ∧
        crp_log crp = Real.log 1.1 := by
  intro age sex sbp total_chol hdl smoker diabetes egfr vasc_count crp h
  have hlog : crp_log crp = crp_log 0.1 := by
    unfold crp_log
    rw [max_eq_right h, max_self]
  constructor
  · unfold calculate_smart_risk lp
    rw [hlog]
  · rw [hlog]
    unfold crp_log
    rw [max_self, show (0.1 : ℝ) + 1 = 1.1 by norm_num]

/-- Witness for C8: the excluded-CRP value 0.0 behaves exactly like 0.1. -/
theorem claim_C8_witness :
    calculate_smart_risk 65 "Male" 140 5 1 false false 80 0 0 =
      calculate_smart_risk 65 "Male" 140 5 1 false false 80 0.1 0 ∧
      crp_log 0 = Real.log 1.1 :=
  claim_C8_crp_floor 65 "Male" 140 5 1 false false 80 0 0 (by norm_num)

/-- Claim C10: `calculate_smart_risk` branches only on whether the sex
string equals "Male": every other sex string gives exactly the result of
"Female". -/
theorem claim_C10_sex_fallback :
    ∀ s : String, s ≠ "Male" →
      ∀ (age sbp total_chol hdl : ℝ) (smoker diabetes : Bool) (egfr crp vasc_count : ℝ),
        calculate_smart_risk age s sbp total_chol hdl smoker diabetes egfr crp vasc_count =
          calculate_smart_risk age "Female" sbp total_chol hdl smoker diabetes egfr crp vasc_count := by
  intro s hs age sbp total_chol hdl smoker diabetes egfr crp vasc_count
  have hval : sex_val s = sex_val "Female" := by
    unfold sex_val
    rw [if_neg hs, if_neg (by simp)]
  unfold calculate_smart_risk lp
  rw [hval]

/-- Witness for C10: the arbitrary non-"Male" string "Other" scores
exactly like "Female". -/
theorem claim_C10_witness :
    calculate_smart_risk 65 "Other" 140 5 1 false false 80 2 0 =
      calculate_smart_risk 65 "Female" 140 5 1 false false 80 2 0 :=
  claim_C10_sex_fallback "Other" (by simp) 65 140 5 1 false false 80 2 0

/-- Claim C5: holding all other inputs fixed within the §3 ranges,
`calculate_smart_risk` is monotonically non-decreasing in age, SBP, total
cholesterol, vascular count and in turning on the smoker and diabetic
flags, and monotonically non-increasing in HDL and eGFR. -/
theorem claim_C5_monotonicity :
    (∀ (age age' : ℝ) (sex : String) (sbp total_chol hdl : ℝ) (smoker diabetes : Bool)
        (egfr crp vasc_count : ℝ),
        InRanges age sbp total_chol hdl egfr crp vasc_count →
        InRanges age' sbp total_chol hdl egfr crp vasc_count → age ≤ age' →
        calculate_smart_risk age sex sbp total_chol hdl smoker diabetes egfr crp vasc_count ≤
          calculate_smart_risk age' sex sbp total_chol hdl smoker diabetes egfr crp vasc_count) ∧
    (∀ (age : ℝ) (sex : String) (sbp sbp' total_chol hdl : ℝ) (smoker diabetes : Bool)
        (egfr crp vasc_count : ℝ),
        InRanges age sbp total_chol hdl egfr crp vasc_count →
        InRanges age sbp' total_chol hdl egfr crp vasc_count → sbp ≤ sbp' →
        calculate_smart_risk age sex sbp total_chol hdl smoker diabetes egfr crp vasc_count ≤
          calculate_smart_risk age sex sbp' total_chol hdl smoker diabetes egfr crp vasc_count) ∧
    (∀ (age : ℝ) (sex : String) (sbp total_chol total_chol' hdl : ℝ) (smoker diabetes : Bool)
        (egfr crp vasc_count : ℝ),
        InRanges age sbp total_chol hdl egfr crp vasc_count →
        InRanges age sbp total_chol' hdl egfr crp vasc_count → total_chol ≤ total_chol' →
        calculate_smart_risk age sex sbp total_chol hdl smoker diabetes egfr crp vasc_count ≤
          calculate_smart_risk age sex sbp total_chol' hdl smoker diabetes egfr crp vasc_count) ∧
    (∀ (age : ℝ) (sex : String) (sbp total_chol hdl : ℝ) (smoker diabetes : Bool)
        (egfr crp vasc_count vasc_count' : ℝ),
        InRanges age sbp total_chol hdl egfr crp vasc_count →
        InRanges age sbp total_chol hdl egfr crp vasc_count' → vasc_count ≤ vasc_count' →
        calculate_smart_risk age sex sbp total_chol hdl smoker diabetes egfr crp vasc_count ≤
          calculate_smart_risk age sex sbp total_chol hdl smoker diabetes egfr crp vasc_count') ∧
    (∀ (age : ℝ) (sex : String) (sbp total_chol hdl : ℝ) (diabetes : Bool)
        (egfr crp vasc_count : ℝ),
        InRanges age sbp total_chol hdl egfr crp vasc_count →
        calculate_smart_risk age sex sbp total_chol hdl false diabetes egfr crp vasc_count ≤
          calculate_smart_risk age sex sbp total_chol hdl true diabetes egfr crp vasc_count) ∧
    (∀ (age : ℝ) (sex : String) (sbp total_chol hdl : ℝ) (smoker : Bool)
        (egfr crp vasc_count : ℝ),
        InRanges age sbp total_chol hdl egfr crp vasc_count →
        calculate_smart_risk age sex sbp total_chol hdl smoker false egfr crp vasc_count ≤
          calculate_smart_risk age sex sbp total_chol hdl smoker true egfr crp vasc_count) ∧
    (∀ (age : ℝ) (sex : String) (sbp total_chol hdl hdl' : ℝ) (smoker diabetes : Bool)
        (egfr crp vasc_count : ℝ),
        InRanges age sbp total_chol hdl egfr crp vasc_count →
        InRanges age sbp total_chol hdl' egfr crp vasc_count → hdl ≤ hdl' →
        calculate_smart_risk age sex sbp total_chol hdl' smoker diabetes egfr crp vasc_count ≤
          calculate_smart_risk age sex sbp total_chol hdl smoker diabetes egfr crp vasc_count) ∧
    (∀ (age : ℝ) (sex : String) (sbp total_chol hdl : ℝ) (smoker diabetes : Bool)
        (egfr egfr' crp vasc_count : ℝ),
        InRanges age sbp total_chol hdl egfr crp vasc_count →
        InRanges age sbp total_chol hdl egfr' crp vasc_count → egfr ≤ egfr' →
        calculate_smart_risk age sex sbp total_chol hdl smoker diabetes egfr' crp vasc_count ≤
          calculate_smart_risk age sex sbp total_chol hdl smoker diabetes egfr crp vasc_count) := by
  refine ⟨?_, ?_, ?_, ?_, ?_, ?_, ?_, ?_⟩
  · intro age age' sex sbp total_chol hdl smoker diabetes egfr crp vasc_count _ _ hle
    unfold calculate_smart_risk
    apply clamped_risk_mono
    unfold lp
    linarith
  · intro age sex sbp sbp' total_chol hdl smoker diabetes egfr crp vasc_count _ _ hle
    unfold calculate_smart_risk
    apply clamped_risk_mono
    unfold lp
    linarith
  · intro age sex sbp total_chol total_chol' hdl smoker diabetes egfr crp vasc_count _ _ hle
    unfold calculate_smart_risk
    apply clamped_risk_mono
    unfold lp
    linarith
  · intro age sex sbp total_chol hdl smoker diabetes egfr crp vasc_count vasc_count' _ _ hle
    unfold calculate_smart_risk
    apply clamped_risk_mono
    unfold lp
    linarith
  · intro age sex sbp total_chol hdl diabetes egfr crp vasc_count _
    unfold calculate_smart_risk
    apply clamped_risk_mono
    unfold lp
    rw [show flag_val false = 0 from rfl, show flag_val true = 1 from rfl]
    linarith
  · intro age sex sbp total_chol hdl smoker egfr crp vasc_count _
    unfold calculate_smart_risk
    apply clamped_risk_mono
    unfold lp
    rw [show flag_val false = 0 from rfl, show flag_val true = 1 from rfl]
    linarith
  · intro age sex sbp total_chol hdl hdl' smoker diabetes egfr crp vasc_count _ _ hle
    unfold calculate_smart_risk
    apply clamped_risk_mono
    unfold lp
    linarith
  · intro age sex sbp total_chol hdl smoker diabetes egfr egfr' crp vasc_count _ _ hle
    unfold calculate_smart_risk
    apply clamped_risk_mono
    unfold lp
    linarith

/-- Witness for C5: each of the eight monotonicity directions at concrete
in-range inputs. -/
theorem claim_C5_witness :
    calculate_smart_risk 65 "Male" 140 5 1 false false 80 2 0 ≤
        calculate_smart_risk 70 "Male" 140 5 1 false false 80 2 0 ∧
      calculate_smart_risk 65 "Male" 140 5 1 false false 80 2 0 ≤
        calculate_smart_risk 65 "Male" 150 5 1 false false 80 2 0 ∧
      calculate_smart_risk 65 "Male" 140 5 1 false false 80 2 0 ≤
        calculate_smart_risk 65 "Male" 140 6 1 false false 80 2 0 ∧
      calculate_smart_risk 65 "Male" 140 5 1 false false 80 2 0 ≤
        calculate_smart_risk 65 "Male" 140 5 1 false false 80 2 1 ∧
      calculate_smart_risk 65 "Male" 140 5 1 false false 80 2 0 ≤
        calculate_smart_risk 65 "Male" 140 5 1 true false 80 2 0 ∧
      calculate_smart_risk 65 "Male" 140 5 1 false false 80 2 0 ≤
        calculate_smart_risk 65 "Male" 140 5 1 false true 80 2 0 ∧
      calculate_smart_risk 65 "Male" 140 5 2 false false 80 2 0 ≤
        calculate_smart_risk 65 "Male" 140 5 1 false false 80 2 0 ∧
      calculate_smart_risk 65 "Male" 140 5 1 false false 90 2 0 ≤
        calculate_smart_risk 65 "Male" 140 5 1 false false 80 2 0 :=
  ⟨claim_C5_monotonicity.1 65 70 "Male" 140 5 1 false false 80 2 0
      (by norm_num [InRanges]) (by norm_num [InRanges]) (by norm_num),
   claim_C5_monotonicity.2.1 65 "Male" 140 150 5 1 false false 80 2 0
      (by norm_num [InRanges]) (by norm_num [InRanges]) (by norm_num),
   claim_C5_monotonicity.2.2.1 65 "Male" 140 5 6 1 false false 80 2 0
      (by norm_num [InRanges]) (by norm_num [InRanges]) (by norm_num),
   claim_C5_monotonicity.2.2.2.1 65 "Male" 140 5 1 false false 80 2 0 1
      (by norm_num [InRanges]) (by norm_num [InRanges]) (by norm_num),
   claim_C5_monotonicity.2.2.2.2.1 65 "Male" 140 5 1 false 80 2 0
      (by norm_num [InRanges]),
   claim_C5_monotonicity.2.2.2.2.2.1 65 "Male" 140 5 1 false 80 2 0
      (by norm_num [InRanges]),
   claim_C5_monotonicity.2.2.2.2.2.2.1 65 "Male" 140 5 1 2 false false 80 2 0
      (by norm_num [InRanges]) (by norm_num [InRanges]) (by norm_num),
   claim_C5_monotonicity.2.2.2.2.2.2.2 65 "Male" 140 5 1 false false 80 90 2 0
      (by norm_num [InRanges]) (by norm_num [InRanges]) (by norm_num)⟩

end CVD
